import Mathlib

/-!
Shallow embedding of `src/Denue.py` (DENUE download / filter / persist script)
and proofs about the claims of its specification.

Conventions of the embedding:
* Python strings are modelled as Lean `String`s; the Python operations
  `str.lower` and the substring test `a in b` are modelled on lists of
  Unicode codepoints (`List Nat`), with `pyLowerCode` implementing the
  simple-lowercase mapping on the ASCII and Latin-1 ranges, which covers
  every character the script's configuration uses.
* A DENUE record is modelled by `Record`: its `id` field, its
  `clase_actividad` field (the only two fields the script inspects), and
  one opaque field standing for all remaining pass-through columns.
* `pandas` DataFrames are modelled as `List Record` (row order preserved);
  `drop_duplicates(subset := id)` keeps the first occurrence, as pandas does.
* Fallible operations (HTTP requests, `pd.read_csv`) are modelled with
  `Except String`.
* The unbounded `while True` pagination loop is modelled by the
  fuel-indexed function `obtenerFuel`; `none` means the fuel ran out,
  and termination claims are statements that some fuel suffices.
-/

namespace Denue

/-! ### Configuration constants (lines 37-55 of `Denue.py`) -/

def TOKEN : String := "b0bad450-5fb1-4efb-a4cd-e2851afe8e85"

def BLOQUE : Nat := 1000

def TIEMPO_ESPERA : Nat := 2

def MAX_INTENTOS_VACIOS : Nat := 2

def ESTRATOS : List String := ["6", "7"]

def PALABRAS_CLAVE : List String :=
  ["farmacéutica", "laboratorio", "manufactura", "fábrica", "transformación"]

/-- Python `str(i).zfill(2)` for the entity numbers 1..32. -/
def zfill2 (n : Nat) : String :=
  if n < 10 then "0" ++ toString n else toString n

/-- List comprehension `[str(i).zfill(2) for i in range(1, 33)]` (line 50). -/
def ENTIDADES : List String := (List.range 32).map (fun i => zfill2 (i + 1))

def ARCHIVO_CSV : String := "pymes_giros_estrategicos.csv"

/-! ### Model of the Python string operations used by the script -/

/-- The codepoints of a string, the domain on which we model Python's
`str.lower` and the substring operator `in`. -/
def strCodes (s : String) : List Nat := s.toList.map Char.toNat

/-- Simple lowercase mapping on a codepoint: ASCII `A`-`Z` and the Latin-1
uppercase letters `À`-`Þ` (excluding `×`) map down by 32, everything else is
unchanged.  This agrees with Python's `str.lower` on every character that
occurs in the script's configuration and data of interest. -/
def pyLowerCode (n : Nat) : Nat :=
  if (65 ≤ n ∧ n ≤ 90) ∨ (192 ≤ n ∧ n ≤ 222 ∧ n ≠ 215) then n + 32 else n

/-- Codepoints of `s.lower()`. -/
def lowerCodes (s : String) : List Nat := (strCodes s).map pyLowerCode

/-- Prefix test on codepoint lists. -/
def esPrefijoCodes : List Nat → List Nat → Bool
  | [], _ => true
  | _ :: _, [] => false
  | a :: as, b :: bs => a == b && esPrefijoCodes as bs

/-- Python's substring operator `aguja in pajar` on codepoint lists. -/
def contieneCodes (aguja : List Nat) : List Nat → Bool
  | [] => aguja.isEmpty
  | b :: bs => esPrefijoCodes aguja (b :: bs) || contieneCodes aguja bs

/-! ### Data model -/

/-- One DENUE record: the `id` column, the `clase_actividad` column, and an
opaque stand-in for every other column the script passes through. -/
structure Record where
  id : String
  clase_actividad : String
  resto : String
deriving DecidableEq, Repr

/-! ### Keyword filter (`filtrar_por_giro`, lines 130-143) -/

/-- Expression `any(palabra in x for palabra in palabras)` where `x` is the lowered
industry-class text: the keyword is compared verbatim, only the record text
is lowered (line 140-142). -/
def coincideGiro (palabras : List String) (texto : String) : Bool :=
  palabras.any (fun palabra => contieneCodes (strCodes palabra) (lowerCodes texto))

/-- Function `filtrar_por_giro` with the keyword list as an explicit argument (the
source reads the module-level constant `PALABRAS_CLAVE`). -/
def filtrar_por_giro_con (palabras : List String) (df : List Record) : List Record :=
  df.filter (fun r => coincideGiro palabras r.clase_actividad)

/-- Function `filtrar_por_giro` (lines 130-143): keep the rows whose lowered
`clase_actividad` contains some configured keyword. -/
def filtrar_por_giro (df : List Record) : List Record :=
  filtrar_por_giro_con PALABRAS_CLAVE df

/-! ### Merge and persist (`guardar_todos_formatos`, lines 146-177) -/

/-- Worker for `drop_duplicates(subset := "id")`: keep the first record of
each `id`, `vistos` being the ids already seen. -/
def quitarDuplicadosAux (vistos : List String) : List Record → List Record
  | [] => []
  | r :: rs =>
    if r.id ∈ vistos then quitarDuplicadosAux vistos rs
    else r :: quitarDuplicadosAux (r.id :: vistos) rs

/-- Call `df_total.drop_duplicates(subset="id")` (line 162): pandas keeps the
first occurrence of each `id`. -/
def drop_duplicates_por_id (df : List Record) : List Record :=
  quitarDuplicadosAux [] df

/-- The written dataset has no two rows with the same `id`. -/
def sinIdsDuplicados (df : List Record) : Prop :=
  (df.map (fun r => r.id)).Nodup

instance (df : List Record) : Decidable (sinIdsDuplicados df) := by
  unfold sinIdsDuplicados; infer_instance

/-- Function `guardar_todos_formatos` (lines 146-177).  The first argument models the
file system: `none` when `ARCHIVO_CSV` does not exist, `some lectura` when it
exists, `lectura` being the outcome of `pd.read_csv` on it (which the source
calls with no exception handler, line 159).  The returned dataset is the one
written identically to the CSV, XLSX and JSON outputs; a `.error` result is
the unhandled exception propagating out of the function. -/
def guardar_todos_formatos (csvPrevio : Option (Except String (List Record)))
    (df : List Record) : Except String (List Record) :=
  match csvPrevio with
  | some lectura =>
    match lectura with
    | .error e => .error e
    | .ok dfExistente => .ok (drop_duplicates_por_id (dfExistente ++ df))
  | none => .ok df

/-- Two consecutive runs of `guardar_todos_formatos` on the same input `df`:
the first with no previous CSV, the second reading the first run's output.
Returns the row counts written by each run. -/
def dobleCorrida (df : List Record) : Except String (Nat × Nat) := do
  let salida1 ← guardar_todos_formatos none df
  let salida2 ← guardar_todos_formatos (some (Except.ok salida1)) df
  pure (salida1.length, salida2.length)

/-! ### Paginator (`obtener_datos`, lines 75-127) -/

/-- Outcome of one pagination run: the accumulated records (`total` in the
source), the number of HTTP requests issued, and the logged error message
when the run ended because a request failed (`None` on normal termination). -/
structure ResultadoPag (α : Type) where
  total : List α
  solicitudes : Nat
  errorReg : Option String
deriving DecidableEq, Repr

/-- The `while True` loop of `obtener_datos`, fuel-indexed.  `src inicio` is
the outcome of `requests.get` + `raise_for_status` + `.json()` for the window
starting at `inicio`: `.error e` models a transport error or non-2xx status,
`.ok datos` the decoded JSON list.  State: accumulated `total`, current
`inicio`, consecutive-empty counter `intentosVacios`, and the number of
requests made so far.  `none` means the fuel was exhausted before the loop
ended on its own. -/
def obtenerFuel {α : Type} (src : Nat → Except String (List α)) :
    Nat → List α → Nat → Nat → Nat → Option (ResultadoPag α)
  | 0, _, _, _, _ => none
  | fuel + 1, total, inicio, intentosVacios, solicitudes =>
    match src inicio with
    | .error e => some ⟨total, solicitudes + 1, some e⟩
    | .ok datos =>
      if datos.isEmpty then
        if MAX_INTENTOS_VACIOS ≤ intentosVacios + 1 then
          some ⟨total, solicitudes + 1, none⟩
        else
          obtenerFuel src fuel total (inicio + BLOQUE) (intentosVacios + 1) (solicitudes + 1)
      else
        if datos.length < BLOQUE then
          some ⟨total ++ datos, solicitudes + 1, none⟩
        else
          obtenerFuel src fuel (total ++ datos) (inicio + BLOQUE) 0 (solicitudes + 1)

/-- Function `obtener_datos(entidad, municipio, estrato)` with the HTTP layer
abstracted into `src`: start at `inicio = 1` with no accumulated records and
no consecutive-empty responses (lines 89-91). -/
def obtener_datos {α : Type} (src : Nat → Except String (List α)) (fuel : Nat) :
    Option (ResultadoPag α) :=
  obtenerFuel src fuel [] 1 0 0

/-! ### Orchestrator (`main`, lines 180-219) -/

/-- Observable events of `main`: one API pagination per (entidad, estrato)
combination, a single merge-and-persist call carrying the concatenated
filtered records, or the nothing-found report. -/
inductive Event
  | consulta (entidad estrato : String)
  | persist (dfTotal : List Record)
  | nadaEncontrado
deriving DecidableEq, Repr

def esPersist : Event → Bool
  | .persist _ => true
  | _ => false

/-- The (entidad, estrato) combinations in the order `main` iterates them:
outer loop over `ENTIDADES`, inner loop over `ESTRATOS` (lines 191-193). -/
def parejas : List (String × String) :=
  ENTIDADES.flatMap (fun entidad => ESTRATOS.map (fun estrato => (entidad, estrato)))

/-- The per-combination body of `main`'s double loop (lines 194-212):
query the paginator (abstracted as `datosDe`), skip the combination when it
returned nothing, otherwise filter by keyword and keep the filtered frame
when it is non-empty.  Returns the consulta events and the
`registros_filtrados` list accumulated over the given combinations. -/
def mainBucle (datosDe : String → String → List Record) :
    List (String × String) → List Event × List (List Record)
  | [] => ([], [])
  | p :: ps =>
    let datos := datosDe p.1 p.2
    let resto := mainBucle datosDe ps
    if datos = [] then
      (Event.consulta p.1 p.2 :: resto.1, resto.2)
    else
      let dfFiltrado := filtrar_por_giro datos
      if dfFiltrado = [] then
        (Event.consulta p.1 p.2 :: resto.1, resto.2)
      else
        (Event.consulta p.1 p.2 :: resto.1, dfFiltrado :: resto.2)

/-- The event trace of one `main` run (lines 189-219): all combinations are
processed, then either `guardar_todos_formatos` is called once on
`pd.concat(registros_filtrados)` or the nothing-found message is printed. -/
def mainTrace (datosDe : String → String → List Record) : List Event :=
  let res := mainBucle datosDe parejas
  if res.2 = [] then res.1 ++ [Event.nadaEncontrado]
  else res.1 ++ [Event.persist res.2.flatten]

/-- Variable `registros_filtrados` at the end of `main`'s loops, as a direct
description: the non-empty keyword-filtered frames of the combinations that
returned data. -/
def recolectados (datosDe : String → String → List Record) : List (List Record) :=
  parejas.filterMap (fun p =>
    let datos := datosDe p.1 p.2
    if datos = [] then none
    else
      let dfFiltrado := filtrar_por_giro datos
      if dfFiltrado = [] then none else some dfFiltrado)

/-! ### Dynamic (pandas-typed) model of the filter, for the safety claim

`main` builds the DataFrame with `pd.DataFrame(datos)` from the decoded JSON
objects and lowercases the column labels (lines 202-205); nothing guarantees
that a `clase_actividad` column exists or that all of its values are
strings.  The definitions below model the dynamic typing of that path: a raw
JSON object is an association list of field name to `PyVal`. -/

/-- A dynamically typed pandas cell: a string, the `NaN` that pandas inserts
for keys missing from a JSON object (and that `.str.lower()` produces for
any non-string cell), or some other non-string scalar. -/
inductive PyVal
  | str (s : String)
  | na
  | numero (n : Int)
deriving DecidableEq, Repr

/-- The Python exceptions relevant to the filter path: `KeyError` from
`df["clase_actividad"]` on a missing column, `TypeError` from evaluating
`palabra in x` when `x` is not a string. -/
inductive PyError
  | keyError
  | typeError
deriving DecidableEq, Repr

/-- Codepoints of the column label `clase_actividad` the filter looks up. -/
def claveClase : List Nat := strCodes "clase_actividad"

/-- Value of the `clase_actividad` cell of one row, after
`df.columns.str.lower()` (line 205): the first field whose lowered name is
`clase_actividad`, and pandas' `NaN` when the JSON object had no such key. -/
def valorClase (fila : List (String × PyVal)) : PyVal :=
  match fila.find? (fun kv => lowerCodes kv.1 == claveClase) with
  | some kv => kv.2
  | none => PyVal.na

/-- Whether the DataFrame built from `datos` has a `clase_actividad` column
after the labels are lowered: pandas takes the union of the objects' keys,
so the column exists exactly when some object has a matching key;
`df["clase_actividad"]` raises `KeyError` otherwise. -/
def tieneColumnaClase (datos : List (List (String × PyVal))) : Bool :=
  datos.any (fun fila => fila.any (fun kv => lowerCodes kv.1 == claveClase))

/-- Monadic map over `Except`, stopping at the first failing element; models
the row-by-row evaluation of `Series.apply`, which re-raises the first
exception the lambda raises. -/
def mapaExc {α β ε : Type} (f : α → Except ε β) : List α → Except ε (List β)
  | [] => .ok []
  | a :: as =>
    match f a with
    | .error e => .error e
    | .ok b =>
      match mapaExc f as with
      | .error e => .error e
      | .ok bs => .ok (b :: bs)

/-- The filter lambda (lines 140-142) on one dynamically typed row:
`.str.lower()` turns a non-string cell into `NaN`, and the first evaluation
of `palabra in x` then raises `TypeError` (the configured `PALABRAS_CLAVE`
is non-empty, so the generator inside `any` is entered). -/
def mascaraFila (fila : List (String × PyVal)) : Except PyError Bool :=
  match valorClase fila with
  | .str s => .ok (coincideGiro PALABRAS_CLAVE s)
  | _ => .error .typeError

/-- Function `filtrar_por_giro` on the dynamically typed DataFrame: raise
`KeyError` when the column is absent, evaluate the keyword mask row by row
(re-raising its first exception), and keep the rows whose mask is true. -/
def filtrar_por_giro_dyn (datos : List (List (String × PyVal))) :
    Except PyError (List (List (String × PyVal))) :=
  if tieneColumnaClase datos then
    match mapaExc mascaraFila datos with
    | .error e => .error e
    | .ok mask => .ok (((datos.zip mask).filter (fun par => par.2)).map (fun par => par.1))
  else .error .keyError

/-- Error-propagation skeleton of `main`'s double loop over the dynamically
typed data: each combination with data goes through `filtrar_por_giro_dyn`,
and since `main` installs no exception handler, the first exception aborts
the remaining iterations (and the whole run). -/
def recorrerParejas (datosDe : String → String → List (List (String × PyVal))) :
    List (String × String) → Except PyError Unit
  | [] => .ok ()
  | p :: ps =>
    let datos := datosDe p.1 p.2
    if datos = [] then recorrerParejas datosDe ps
    else
      match filtrar_por_giro_dyn datos with
      | .error e => .error e
      | .ok _ => recorrerParejas datosDe ps

/-- One `main` run over the dynamically typed data, reduced to whether it
completes or aborts with an unhandled exception from the filter. -/
def mainDyn (datosDe : String → String → List (List (String × PyVal))) :
    Except PyError Unit :=
  recorrerParejas datosDe parejas

/-! ### Concrete data used by counterexamples and witnesses -/

/-- Two records sharing the id `001` but differing elsewhere. -/
def regA : Record := ⟨"001", "manufactura de equipo", "Planta A"⟩

/-- Second record with the same id as `regA`. -/
def regB : Record := ⟨"001", "manufactura de equipo", "Planta B"⟩

/-- Record whose industry class matches the keyword `farmacéutica` only
case-insensitively. -/
def regFarma : Record := ⟨"010", "Industria Farmacéutica de México", "CDMX"⟩

/-- Record whose industry class matches no configured keyword. -/
def regComercio : Record := ⟨"011", "Comercio al por menor", "CDMX"⟩

/-- Simulated source for the two-window scenario: the first window returns
exactly `BLOQUE` records and every later window is empty. -/
def srcDosVentanas : Nat → Except String (List Nat) :=
  fun inicio => if inicio = 1 then .ok (List.replicate BLOQUE 7) else .ok []

/-! ## Lemmas about the string model -/

/-- A successful prefix test only uses codepoints of the larger list. -/
theorem esPrefijoCodes_subset :
    ∀ a b : List Nat, esPrefijoCodes a b = true → ∀ c ∈ a, c ∈ b := by
  intro a
  induction a with
  | nil => intro b _ c hc; cases hc
  | cons x xs ih =>
    intro b h c hc
    cases b with
    | nil => simp [esPrefijoCodes] at h
    | cons y ys =>
      simp only [esPrefijoCodes, Bool.and_eq_true, beq_iff_eq] at h
      rcases List.mem_cons.mp hc with rfl | hmem
      · exact List.mem_cons.mpr (Or.inl h.1)
      · exact List.mem_cons.mpr (Or.inr (ih ys h.2 c hmem))

/-- A successful substring test only uses codepoints of the haystack. -/
theorem contieneCodes_subset :
    ∀ (aguja pajar : List Nat), contieneCodes aguja pajar = true → ∀ c ∈ aguja, c ∈ pajar := by
  intro aguja pajar
  induction pajar with
  | nil =>
    intro h c hc
    simp only [contieneCodes, List.isEmpty_iff] at h
    subst h; cases hc
  | cons y ys ih =>
    intro h c hc
    simp only [contieneCodes, Bool.or_eq_true] at h
    rcases h with h | h
    · exact esPrefijoCodes_subset _ _ h c hc
    · exact List.mem_cons.mpr (Or.inr (ih h c hc))

/-- The modelled lowercase mapping is idempotent. -/
theorem pyLowerCode_idem (n : Nat) : pyLowerCode (pyLowerCode n) = pyLowerCode n := by
  unfold pyLowerCode
  split
  · split
    · omega
    · rfl
  · rfl

/-! ## Claims about the keyword filter -/

/-- C5: `filtrar_por_giro` returns exactly the rows of the input whose
lowered `clase_actividad` contains at least one configured keyword as a
substring (sub-list of the input, membership characterised), with an empty
keyword list nothing passes, and the spec's worked example behaves as
stated. -/
theorem filtrar_por_giro_caracterizacion :
    (∀ df : List Record, List.Sublist (filtrar_por_giro df) df)
  ∧ (∀ (df : List Record) (r : Record),
      r ∈ filtrar_por_giro df ↔
        r ∈ df ∧ ∃ palabra ∈ PALABRAS_CLAVE,
          contieneCodes (strCodes palabra) (lowerCodes r.clase_actividad) = true)
  ∧ (∀ df : List Record, filtrar_por_giro_con [] df = [])
  ∧ filtrar_por_giro [regFarma, regComercio] = [regFarma] := by
  refine ⟨?_, ?_, ?_, ?_⟩
  · intro df
    exact List.filter_sublist df
  · intro df r
    simp [filtrar_por_giro, filtrar_por_giro_con, List.mem_filter, coincideGiro,
      List.any_eq_true]
  · intro df
    simp [filtrar_por_giro_con, coincideGiro]
  · decide

/-- C10: the filter lowers only the record text and compares the keyword
verbatim, hence a keyword containing an uppercase character matches no
record; every configured keyword is already lower-case, and therefore the
filter coincides with the fully case-insensitive one that lowers both
sides.  A concrete uppercase keyword matches a record it would match
case-insensitively. -/
theorem filtro_minusculas_verbatim :
    (∀ palabra : String,
      (∃ c ∈ strCodes palabra, pyLowerCode c ≠ c) →
      ∀ texto : String, contieneCodes (strCodes palabra) (lowerCodes texto) = false)
  ∧ (∀ palabra ∈ PALABRAS_CLAVE, lowerCodes palabra = strCodes palabra)
  ∧ (∀ df : List Record,
      filtrar_por_giro df =
        df.filter (fun r =>
          PALABRAS_CLAVE.any (fun palabra =>
            contieneCodes (lowerCodes palabra) (lowerCodes r.clase_actividad))))
  ∧ filtrar_por_giro_con ["Farmacéutica"] [regFarma] = [] := by
  refine ⟨?_, ?_, ?_, ?_⟩
  · intro palabra ⟨c, hc, hne⟩ texto
    by_contra hcon
    have htrue : contieneCodes (strCodes palabra) (lowerCodes texto) = true := by
      cases h : contieneCodes (strCodes palabra) (lowerCodes texto)
      · exact absurd h hcon
      · rfl
    have hmem : c ∈ lowerCodes texto := contieneCodes_subset _ _ htrue c hc
    unfold lowerCodes at hmem
    rcases List.mem_map.mp hmem with ⟨d, _, hd⟩
    have : pyLowerCode c = c := by
      rw [← hd]; exact pyLowerCode_idem d
    exact hne this
  · decide
  · intro df
    unfold filtrar_por_giro filtrar_por_giro_con
    apply List.filter_congr
    intro r _
    unfold coincideGiro
    have h5 : ∀ palabra ∈ PALABRAS_CLAVE, strCodes palabra = lowerCodes palabra := by decide
    simp only [PALABRAS_CLAVE] at h5 ⊢
    simp only [List.any_cons, List.any_nil]
    rw [h5 "farmacéutica" (by simp), h5 "laboratorio" (by simp), h5 "manufactura" (by simp),
      h5 "fábrica" (by simp), h5 "transformación" (by simp)]
  · decide

/-- Witness for C10 at the concrete keyword `A`: it contains an uppercase
codepoint and matches no text, in particular not the text `abc`. -/
theorem filtro_minusculas_verbatim_witness :
    contieneCodes (strCodes "A") (lowerCodes "abc") = false :=
  filtro_minusculas_verbatim.1 "A" ⟨65, by decide, by decide⟩ "abc"

/-! ## Lemmas about first-occurrence deduplication -/

/-- No record surviving deduplication has an id that was already seen. -/
theorem quitarDuplicadosAux_fuera :
    ∀ (vistos : List String) (df : List Record) (r : Record),
      r ∈ quitarDuplicadosAux vistos df → r.id ∉ vistos := by
  intro vistos df
  induction df generalizing vistos with
  | nil => intro r hr; cases hr
  | cons x xs ih =>
    intro r hr
    by_cases hx : x.id ∈ vistos
    · rw [quitarDuplicadosAux, if_pos hx] at hr
      exact ih vistos r hr
    · rw [quitarDuplicadosAux, if_neg hx] at hr
      rcases List.mem_cons.mp hr with rfl | hmem
      · exact hx
      · intro hv
        exact ih (x.id :: vistos) r hmem (List.mem_cons.mpr (Or.inr hv))

/-- The ids surviving deduplication are pairwise distinct. -/
theorem quitarDuplicadosAux_nodup :
    ∀ (vistos : List String) (df : List Record),
      ((quitarDuplicadosAux vistos df).map (fun r => r.id)).Nodup := by
  intro vistos df
  induction df generalizing vistos with
  | nil => simp [quitarDuplicadosAux]
  | cons x xs ih =>
    by_cases hx : x.id ∈ vistos
    · rw [quitarDuplicadosAux, if_pos hx]
      exact ih vistos
    · rw [quitarDuplicadosAux, if_neg hx]
      refine List.nodup_cons.mpr ⟨?_, ih (x.id :: vistos)⟩
      intro hmem
      rcases List.mem_map.mp hmem with ⟨r, hr, hid⟩
      exact quitarDuplicadosAux_fuera _ _ r hr (List.mem_cons.mpr (Or.inl hid))

/-- Deduplication never lengthens the list. -/
theorem quitarDuplicadosAux_length_le :
    ∀ (vistos : List String) (df : List Record),
      (quitarDuplicadosAux vistos df).length ≤ df.length := by
  intro vistos df
  induction df generalizing vistos with
  | nil => simp [quitarDuplicadosAux]
  | cons x xs ih =>
    by_cases hx : x.id ∈ vistos
    · rw [quitarDuplicadosAux, if_pos hx]
      exact Nat.le_succ_of_le (ih vistos)
    · rw [quitarDuplicadosAux, if_neg hx]
      simpa using ih (x.id :: vistos)

/-- A list of records with pairwise-distinct, unseen ids is left unchanged. -/
theorem quitarDuplicadosAux_fijo :
    ∀ (vistos : List String) (df : List Record),
      (df.map (fun r => r.id)).Nodup → (∀ r ∈ df, r.id ∉ vistos) →
      quitarDuplicadosAux vistos df = df := by
  intro vistos df
  induction df generalizing vistos with
  | nil => intro _ _; rfl
  | cons x xs ih =>
    intro hnd hout
    have hx : x.id ∉ vistos := hout x (List.mem_cons_self x xs)
    rw [quitarDuplicadosAux, if_neg hx]
    congr 1
    apply ih
    · exact (List.nodup_cons.mp (by simpa using hnd)).2
    · intro r hr
      intro hmem
      rcases List.mem_cons.mp hmem with hid | hv
      · have : x.id ∉ xs.map (fun r => r.id) := (List.nodup_cons.mp (by simpa using hnd)).1
        exact this (List.mem_map.mpr ⟨r, hr, hid⟩)
      · exact hout r (List.mem_cons.mpr (Or.inr hr)) hv

/-- Deduplication only consults membership in the seen-id list, so two
seen-id lists with the same members behave identically. -/
theorem quitarDuplicadosAux_congr :
    ∀ (v w : List String) (df : List Record), (∀ i, i ∈ v ↔ i ∈ w) →
      quitarDuplicadosAux v df = quitarDuplicadosAux w df := by
  intro v w df
  induction df generalizing v w with
  | nil => intro _; rfl
  | cons x xs ih =>
    intro hvw
    by_cases hx : x.id ∈ v
    · rw [quitarDuplicadosAux, if_pos hx, quitarDuplicadosAux, if_pos ((hvw x.id).mp hx)]
      exact ih v w hvw
    · rw [quitarDuplicadosAux, if_neg hx, quitarDuplicadosAux,
        if_neg (fun hw => hx ((hvw x.id).mpr hw))]
      congr 1
      apply ih
      intro i
      simp only [List.mem_cons]
      exact or_congr Iff.rfl (hvw i)

/-- Splitting deduplication at an append: the second half sees the ids of
the first half in addition to the initially seen ones. -/
theorem quitarDuplicadosAux_append :
    ∀ (v : List String) (xs ys : List Record),
      quitarDuplicadosAux v (xs ++ ys) =
        quitarDuplicadosAux v xs ++
          quitarDuplicadosAux (xs.map (fun r => r.id) ++ v) ys := by
  intro v xs
  induction xs generalizing v with
  | nil => intro ys; simp [quitarDuplicadosAux]
  | cons x xs ih =>
    intro ys
    by_cases hx : x.id ∈ v
    · rw [List.cons_append, quitarDuplicadosAux, if_pos hx, quitarDuplicadosAux, if_pos hx,
        ih v ys]
      congr 1
      apply quitarDuplicadosAux_congr
      intro i
      simp only [List.map_cons, List.cons_append, List.mem_cons, List.mem_append]
      constructor
      · rintro (h | h) <;> simp [h]
      · rintro (rfl | h | h) <;> simp [hx, *]
    · rw [List.cons_append, quitarDuplicadosAux, if_neg hx, quitarDuplicadosAux, if_neg hx,
        ih (x.id :: v) ys, List.cons_append]
      congr 2
      apply quitarDuplicadosAux_congr
      intro i
      simp only [List.map_cons, List.cons_append, List.mem_cons, List.mem_append]
      tauto

/-- Records whose ids were all seen already are dropped entirely. -/
theorem quitarDuplicadosAux_todo_visto :
    ∀ (v : List String) (ys : List Record), (∀ r ∈ ys, r.id ∈ v) →
      quitarDuplicadosAux v ys = [] := by
  intro v ys
  induction ys with
  | nil => intro _; rfl
  | cons y ys ih =>
    intro h
    rw [quitarDuplicadosAux, if_pos (h y (List.mem_cons_self y ys))]
    exact ih (fun r hr => h r (List.mem_cons.mpr (Or.inr hr)))

/-- Deduplicating a list concatenated with itself equals deduplicating it
once. -/
theorem drop_duplicates_doble (df : List Record) :
    drop_duplicates_por_id (df ++ df) = drop_duplicates_por_id df := by
  unfold drop_duplicates_por_id
  rw [quitarDuplicadosAux_append]
  rw [quitarDuplicadosAux_todo_visto (df.map (fun r => r.id) ++ []) df
    (fun r hr => by simp [List.mem_map]; exact ⟨r, hr, rfl⟩)]
  simp

/-! ## Claims about merge-and-persist -/

/-- C1 counterexample: with no previous output file, `guardar_todos_formatos`
writes the input unchanged, so two input records with the same id `001` both
survive — the written dataset does contain two records with equal id. -/
theorem guardar_sin_previo_conserva_duplicados :
    guardar_todos_formatos none [regA, regB] = Except.ok [regA, regB]
  ∧ ¬ sinIdsDuplicados [regA, regB] :=
  ⟨rfl, by decide⟩

/-- C1 amended: when a previous CSV exists and is readable, the
concatenation of the previous dataset and the current records is
deduplicated by id before writing (so the written dataset has no two equal
ids); when no previous file exists, the current records are written
unchanged. -/
theorem guardar_deduplica_solo_con_previo :
    (∀ (prev df : List Record),
      guardar_todos_formatos (some (Except.ok prev)) df
          = Except.ok (drop_duplicates_por_id (prev ++ df))
        ∧ sinIdsDuplicados (drop_duplicates_por_id (prev ++ df)))
  ∧ (∀ df : List Record, guardar_todos_formatos none df = Except.ok df) := by
  constructor
  · intro prev df
    exact ⟨rfl, quitarDuplicadosAux_nodup [] (prev ++ df)⟩
  · intro df
    rfl

/-- C3 counterexample: when the previous CSV exists but reading it fails,
`guardar_todos_formatos` propagates the exception instead of falling back to
an empty history (which would have produced the deduplicated current
records). -/
theorem guardar_lectura_fallida_contraejemplo :
    guardar_todos_formatos (some (Except.error "archivo corrupto")) [regFarma]
        = Except.error "archivo corrupto"
  ∧ guardar_todos_formatos (some (Except.error "archivo corrupto")) [regFarma]
        ≠ Except.ok (drop_duplicates_por_id ([] ++ [regFarma])) :=
  ⟨rfl, fun h => Except.noConfusion h⟩

/-- C3 amended: a failure reading the existing CSV propagates unhandled out
of `guardar_todos_formatos` (aborting the run); the history is not replaced
by an empty dataset and no warning path exists. -/
theorem guardar_lectura_fallida_propaga :
    ∀ (mensaje : String) (df : List Record),
      guardar_todos_formatos (some (Except.error mensaje)) df = Except.error mensaje := by
  intro mensaje df
  rfl

/-- C6 counterexample: with an input containing two records of equal id, the
first run (no previous file) writes 2 rows and the second run (reading the
first run's output) writes 1 row — the cardinalities differ. -/
theorem dobleCorrida_contraejemplo :
    dobleCorrida [regA, regB] = Except.ok (2, 1) ∧ (2 : Nat) ≠ 1 :=
  ⟨rfl, by decide⟩

/-- C6 amended: running `guardar_todos_formatos` twice on the same input
(the second run reading the first run's output) never grows the dataset, and
the cardinality is preserved whenever the input has pairwise-distinct ids. -/
theorem dobleCorrida_sin_crecimiento :
    ∀ df : List Record, ∃ n1 n2,
      dobleCorrida df = Except.ok (n1, n2)
        ∧ n2 ≤ n1 ∧ (sinIdsDuplicados df → n2 = n1) := by
  intro df
  refine ⟨df.length, (drop_duplicates_por_id df).length, ?_, ?_, ?_⟩
  · show dobleCorrida df = _
    unfold dobleCorrida
    rw [show guardar_todos_formatos none df = Except.ok df from rfl]
    show (do
      let salida2 ← guardar_todos_formatos (some (Except.ok df)) df
      pure (df.length, salida2.length) : Except String (Nat × Nat)) = _
    rw [show guardar_todos_formatos (some (Except.ok df)) df
        = Except.ok (drop_duplicates_por_id (df ++ df)) from rfl]
    rw [drop_duplicates_doble]
    rfl
  · exact quitarDuplicadosAux_length_le [] df
  · intro h
    rw [drop_duplicates_por_id,
      quitarDuplicadosAux_fijo [] df h (fun r _ hv => by cases hv)]

/-- Witness for C6 amended, at a duplicate-free input: both runs write one
row. -/
theorem dobleCorrida_sin_crecimiento_witness :
    ∃ n1 n2, dobleCorrida [regFarma] = Except.ok (n1, n2) ∧ n2 = n1 := by
  obtain ⟨n1, n2, h1, _, h3⟩ := dobleCorrida_sin_crecimiento [regFarma]
  exact ⟨n1, n2, h1, h3 (by decide)⟩

/-! ## Step lemmas for the pagination loop -/

/-- A failing request ends the loop at once, returning the accumulated
records and logging the error (lines 97-104). -/
theorem obtenerFuel_paso_error {α : Type} (src : Nat → Except String (List α))
    {inicio : Nat} {e : String} (h : src inicio = Except.error e)
    (fuel : Nat) (total : List α) (intentosVacios solicitudes : Nat) :
    obtenerFuel src (fuel + 1) total inicio intentosVacios solicitudes
      = some ⟨total, solicitudes + 1, some e⟩ := by
  simp only [obtenerFuel, h]

/-- An empty response below the consecutive-empty threshold advances the
window (lines 106-111, 121-125). -/
theorem obtenerFuel_paso_vacio_sigue {α : Type} (src : Nat → Except String (List α))
    {inicio : Nat} (h : src inicio = Except.ok ([] : List α))
    {intentosVacios : Nat} (hv : intentosVacios + 1 < MAX_INTENTOS_VACIOS)
    (fuel : Nat) (total : List α) (solicitudes : Nat) :
    obtenerFuel src (fuel + 1) total inicio intentosVacios solicitudes
      = obtenerFuel src fuel total (inicio + BLOQUE) (intentosVacios + 1) (solicitudes + 1) := by
  simp only [obtenerFuel, h, List.isEmpty_nil, if_true]
  rw [if_neg (by omega)]

/-- An empty response reaching the consecutive-empty threshold ends the loop
normally (lines 106-111). -/
theorem obtenerFuel_paso_vacio_corta {α : Type} (src : Nat → Except String (List α))
    {inicio : Nat} (h : src inicio = Except.ok ([] : List α))
    {intentosVacios : Nat} (hv : MAX_INTENTOS_VACIOS ≤ intentosVacios + 1)
    (fuel : Nat) (total : List α) (solicitudes : Nat) :
    obtenerFuel src (fuel + 1) total inicio intentosVacios solicitudes
      = some ⟨total, solicitudes + 1, none⟩ := by
  simp only [obtenerFuel, h, List.isEmpty_nil, if_true]
  rw [if_pos hv]

/-- A short non-empty page is appended and ends the loop normally
(lines 112-119). -/
theorem obtenerFuel_paso_corta {α : Type} (src : Nat → Except String (List α))
    {inicio : Nat} {datos : List α} (h : src inicio = Except.ok datos)
    (hne : datos ≠ []) (hlen : datos.length < BLOQUE)
    (fuel : Nat) (total : List α) (intentosVacios solicitudes : Nat) :
    obtenerFuel src (fuel + 1) total inicio intentosVacios solicitudes
      = some ⟨total ++ datos, solicitudes + 1, none⟩ := by
  simp only [obtenerFuel, h]
  rw [if_neg (by simp [List.isEmpty_iff, hne]), if_pos hlen]

/-- A full page is appended, the empty counter resets, and the loop advances
(lines 112-125). -/
theorem obtenerFuel_paso_llena {α : Type} (src : Nat → Except String (List α))
    {inicio : Nat} {datos : List α} (h : src inicio = Except.ok datos)
    (hne : datos ≠ []) (hlen : ¬ datos.length < BLOQUE)
    (fuel : Nat) (total : List α) (intentosVacios solicitudes : Nat) :
    obtenerFuel src (fuel + 1) total inicio intentosVacios solicitudes
      = obtenerFuel src fuel (total ++ datos) (inicio + BLOQUE) 0 (solicitudes + 1) := by
  simp only [obtenerFuel, h]
  rw [if_neg (by simp [List.isEmpty_iff, hne]), if_neg hlen]

/-! ## Claims about the paginator -/

/-- C2 counterexample: a source whose first window holds exactly `BLOQUE`
records and whose later windows are all empty makes the paginator issue 3
requests (one full page, then two consecutive empty pages), not 2. -/
theorem dos_ventanas_contraejemplo :
    obtener_datos srcDosVentanas 10 = some ⟨List.replicate BLOQUE 7, 3, none⟩
  ∧ (3 : Nat) ≠ 2 := by
  constructor
  · unfold obtener_datos
    rw [show (10 : Nat) = 9 + 1 from rfl,
      obtenerFuel_paso_llena srcDosVentanas
        (show srcDosVentanas 1 = Except.ok (List.replicate BLOQUE 7) from rfl)
        (by
          intro h
          have h2 := congrArg List.length h
          rw [List.length_replicate] at h2
          simp [BLOQUE] at h2)
        (by rw [List.length_replicate]; exact Nat.lt_irrefl BLOQUE) 9 [] 0 0]
    rw [show (9 : Nat) = 8 + 1 from rfl,
      obtenerFuel_paso_vacio_sigue srcDosVentanas
        (show srcDosVentanas (1 + BLOQUE) = Except.ok [] from rfl)
        (by simp [MAX_INTENTOS_VACIOS]) 8 ([] ++ List.replicate BLOQUE 7) 1]
    rw [show (8 : Nat) = 7 + 1 from rfl,
      obtenerFuel_paso_vacio_corta srcDosVentanas
        (show srcDosVentanas (1 + BLOQUE + BLOQUE) = Except.ok [] from rfl)
        (by simp [MAX_INTENTOS_VACIOS]) 7 ([] ++ List.replicate BLOQUE 7) 2]
    rw [List.nil_append]
  · decide

/-- C2 amended: if the source returns exactly `BLOQUE` records for the first
window and every later window is empty, `obtener_datos` makes exactly 3
requests (the threshold `MAX_INTENTOS_VACIOS = 2` demands two consecutive
empty responses before stopping) and returns exactly the first page's
records, with no logged error. -/
theorem dos_ventanas_tres_solicitudes {α : Type} (src : Nat → Except String (List α))
    (pagina : List α) (fuel : Nat)
    (h1 : src 1 = Except.ok pagina)
    (hlen : pagina.length = BLOQUE)
    (hresto : ∀ inicio, inicio ≠ 1 → src inicio = Except.ok [])
    (hfuel : 3 ≤ fuel) :
    obtener_datos src fuel = some ⟨pagina, 3, none⟩ := by
  obtain ⟨k, rfl⟩ : ∃ k, fuel = k + 3 := ⟨fuel - 3, by omega⟩
  have hne : pagina ≠ [] := by
    intro h
    rw [h] at hlen
    simp [BLOQUE] at hlen
  unfold obtener_datos
  rw [show k + 3 = (k + 2) + 1 from rfl,
    obtenerFuel_paso_llena src h1 hne (by omega) (k + 2) [] 0 0]
  rw [show k + 2 = (k + 1) + 1 from rfl,
    obtenerFuel_paso_vacio_sigue src (hresto (1 + BLOQUE) (by simp [BLOQUE])) (by simp [MAX_INTENTOS_VACIOS]) (k + 1) ([] ++ pagina) 1]
  rw [show k + 1 = k + 1 from rfl,
    obtenerFuel_paso_vacio_corta src (hresto (1 + BLOQUE + BLOQUE) (by simp [BLOQUE])) (by simp [MAX_INTENTOS_VACIOS]) k ([] ++ pagina) 2]
  simp

/-- Witness for C2 amended at the concrete two-window source. -/
theorem dos_ventanas_tres_solicitudes_witness :
    obtener_datos srcDosVentanas 5 = some ⟨List.replicate BLOQUE 7, 3, none⟩ :=
  dos_ventanas_tres_solicitudes srcDosVentanas (List.replicate BLOQUE 7) 5
    (by simp [srcDosVentanas])
    (by simp)
    (fun inicio h => by simp [srcDosVentanas, h])
    (by omega)

/-- Fuel bound under which the loop provably finishes when every window at
offset `N` or beyond is empty. -/
theorem obtenerFuel_termina_aux {α : Type} (src : Nat → Except String (List α)) (N : Nat)
    (hN : ∀ off, N ≤ off → src off = Except.ok ([] : List α)) :
    ∀ (fuel : Nat) (total : List α) (inicio intentosVacios solicitudes : Nat),
      intentosVacios < MAX_INTENTOS_VACIOS →
      2 * (N - inicio) + (MAX_INTENTOS_VACIOS - intentosVacios) ≤ fuel →
      (obtenerFuel src fuel total inicio intentosVacios solicitudes).isSome := by
  have hM : MAX_INTENTOS_VACIOS = 2 := rfl
  have hB : BLOQUE = 1000 := rfl
  intro fuel
  induction fuel with
  | zero =>
    intro total inicio intentosVacios solicitudes hvac hbound
    omega
  | succ f ih =>
    intro total inicio intentosVacios solicitudes hvac hbound
    rcases hsrc : src inicio with e | datos
    · rw [obtenerFuel_paso_error src hsrc f total intentosVacios solicitudes]
      rfl
    · by_cases hd : datos = []
      · subst hd
        by_cases hstop : MAX_INTENTOS_VACIOS ≤ intentosVacios + 1
        · rw [obtenerFuel_paso_vacio_corta src hsrc hstop f total solicitudes]
          rfl
        · rw [obtenerFuel_paso_vacio_sigue src hsrc (by omega) f total solicitudes]
          exact ih total (inicio + BLOQUE) (intentosVacios + 1) (solicitudes + 1)
            (by omega) (by omega)
      · have hlt : inicio < N := by
          by_contra hge
          exact hd (Except.ok.inj (hsrc.symm.trans (hN inicio (by omega))))
        by_cases hlen : datos.length < BLOQUE
        · rw [obtenerFuel_paso_corta src hsrc hd hlen f total intentosVacios solicitudes]
          rfl
        · rw [obtenerFuel_paso_llena src hsrc hd hlen f total intentosVacios solicitudes]
          exact ih (total ++ datos) (inicio + BLOQUE) 0 (solicitudes + 1)
            (by omega) (by omega)

/-- C7: for every source all of whose windows beyond some offset are empty,
the pagination loop of `obtener_datos` finishes within a bounded number of
iterations — some finite fuel (hence a bounded number of page requests)
suffices. -/
theorem paginador_termina {α : Type} (src : Nat → Except String (List α)) (N : Nat)
    (hN : ∀ off, N ≤ off → src off = Except.ok ([] : List α)) :
    ∃ fuel, (obtener_datos src fuel).isSome := by
  refine ⟨2 * (N - 1) + 2, ?_⟩
  exact obtenerFuel_termina_aux src N hN _ [] 1 0 0 (by decide)
    (by have hM : MAX_INTENTOS_VACIOS = 2 := rfl; omega)

/-- Witness for C7 at the everywhere-empty source. -/
theorem paginador_termina_witness :
    ∃ fuel, (obtener_datos (fun _ => Except.ok ([] : List Nat)) fuel).isSome :=
  paginador_termina (fun _ => Except.ok []) 0 (fun _ _ => rfl)

/-! ## Lemmas about the orchestrator loop -/

/-- Closed form of `main`'s double loop: one consulta event per combination
in order, and the accumulated `registros_filtrados` is the filter-map of the
per-combination body over the combinations. -/
theorem mainBucle_eq (datosDe : String → String → List Record) :
    ∀ ps : List (String × String),
      mainBucle datosDe ps =
        (ps.map (fun p => Event.consulta p.1 p.2),
         ps.filterMap (fun p =>
           let datos := datosDe p.1 p.2
           if datos = [] then none
           else
             let dfFiltrado := filtrar_por_giro datos
             if dfFiltrado = [] then none else some dfFiltrado)) := by
  intro ps
  induction ps with
  | nil => rfl
  | cons p ps ih =>
    simp only [mainBucle, List.map_cons, List.filterMap_cons]
    by_cases h1 : datosDe p.1 p.2 = []
    · simp [h1, ih]
    · by_cases h2 : filtrar_por_giro (datosDe p.1 p.2) = []
      · simp [h1, h2, ih]
      · simp [h1, h2, ih]

/-- Shape of the full `main` trace: the consultas of all combinations in
order, then one final event depending on whether any filtered frame was
collected. -/
theorem mainTrace_forma (datosDe : String → String → List Record) :
    mainTrace datosDe
      = parejas.map (fun p => Event.consulta p.1 p.2)
        ++ [if recolectados datosDe = [] then Event.nadaEncontrado
            else Event.persist (recolectados datosDe).flatten] := by
  unfold mainTrace
  rw [mainBucle_eq datosDe parejas]
  by_cases h : recolectados datosDe = []
  · rw [if_pos h]
    simp only [recolectados] at h
    simp [h]
  · rw [if_neg h]
    simp only [recolectados] at h ⊢
    simp [h]

/-! ## Claims about the orchestrator -/

/-- C4: on a transport error or non-2xx response at any point of the
pagination (any loop state), `obtener_datos` returns exactly the records
accumulated so far, issues no further request for this combination (one
single request is counted for the failing window), and logs the error;
and `main`'s trace always contains the consulta of every (region,
size-bracket) combination, so a failed combination does not abort the
iteration over the rest. -/
theorem fallo_no_reintenta_y_continua :
    (∀ (α : Type) (src : Nat → Except String (List α)) (e : String)
        (fuel : Nat) (total : List α) (inicio intentosVacios solicitudes : Nat),
      src inicio = Except.error e →
      obtenerFuel src (fuel + 1) total inicio intentosVacios solicitudes
        = some ⟨total, solicitudes + 1, some e⟩)
  ∧ (∀ datosDe : String → String → List Record,
      ∃ final, mainTrace datosDe
        = parejas.map (fun p => Event.consulta p.1 p.2) ++ [final]) := by
  constructor
  · intro α src e fuel total inicio intentosVacios solicitudes h
    exact obtenerFuel_paso_error src h fuel total intentosVacios solicitudes
  · intro datosDe
    exact ⟨_, mainTrace_forma datosDe⟩

/-- Witness for C4 at a source that fails immediately: the run returns the
empty accumulator after exactly one request, logging the error. -/
theorem fallo_no_reintenta_witness :
    obtenerFuel (fun _ => (Except.error "timeout" : Except String (List Nat))) 1 [] 1 0 0
      = some ⟨[], 1, some "timeout"⟩ :=
  fallo_no_reintenta_y_continua.1 Nat (fun _ => Except.error "timeout") "timeout" 0 [] 1 0 0 rfl

/-- C8: in every `main` run, merge-and-persist appears exactly once in the
trace when some combination produced a non-empty filtered result and never
otherwise; the whole trace is the consultas of all 64 combinations followed
by one final event — persist of the concatenated filtered frames, or the
nothing-found report — so persistence happens strictly after all
combinations and never per-combination. -/
theorem persistencia_una_vez_al_final (datosDe : String → String → List Record) :
    ((mainTrace datosDe).countP esPersist
        = if recolectados datosDe = [] then 0 else 1)
  ∧ (mainTrace datosDe
      = parejas.map (fun p => Event.consulta p.1 p.2)
        ++ [if recolectados datosDe = [] then Event.nadaEncontrado
            else Event.persist (recolectados datosDe).flatten])
  ∧ (recolectados datosDe = [] ↔
      ∀ p ∈ parejas, datosDe p.1 p.2 = [] ∨ filtrar_por_giro (datosDe p.1 p.2) = []) := by
  have htrace := mainTrace_forma datosDe
  refine ⟨?_, htrace, ?_⟩
  · rw [htrace, List.countP_append]
    have h0 : (parejas.map (fun p => Event.consulta p.1 p.2)).countP esPersist = 0 := by
      rw [List.countP_eq_zero]
      intro e he
      rcases List.mem_map.mp he with ⟨p, _, rfl⟩
      simp [esPersist]
    rw [h0]
    by_cases h : recolectados datosDe = []
    · simp [h, List.countP_cons, esPersist]
    · simp [h, List.countP_cons, esPersist]
  · unfold recolectados
    rw [List.filterMap_eq_nil_iff]
    constructor
    · intro h p hp
      have := h p hp
      by_cases h1 : datosDe p.1 p.2 = []
      · exact Or.inl h1
      · right
        simp only [h1, if_neg] at this
        by_cases h2 : filtrar_por_giro (datosDe p.1 p.2) = []
        · exact h2
        · simp [h2] at this
    · intro h p hp
      rcases h p hp with h1 | h2
      · simp [h1]
      · by_cases h1 : datosDe p.1 p.2 = []
        · simp [h1]
        · simp [h1, h2]

/-! ## Lemmas about the dynamically typed filter path -/

/-- The mask lambda either yields a Boolean or raises `TypeError`. -/
theorem mascaraFila_ok_o_typeError (fila : List (String × PyVal)) :
    (∃ b, mascaraFila fila = Except.ok b) ∨ mascaraFila fila = Except.error PyError.typeError := by
  unfold mascaraFila
  cases valorClase fila with
  | str s => exact Or.inl ⟨_, rfl⟩
  | na => exact Or.inr rfl
  | numero n => exact Or.inr rfl

/-- When every element maps successfully, the monadic map succeeds. -/
theorem mapaExc_ok {α β ε : Type} (f : α → Except ε β) :
    ∀ l : List α, (∀ a ∈ l, ∃ b, f a = Except.ok b) → ∃ bs, mapaExc f l = Except.ok bs := by
  intro l
  induction l with
  | nil => intro _; exact ⟨[], rfl⟩
  | cons a as ih =>
    intro h
    obtain ⟨b, hb⟩ := h a (List.mem_cons_self a as)
    obtain ⟨bs, hbs⟩ := ih (fun x hx => h x (List.mem_cons.mpr (Or.inr hx)))
    exact ⟨b :: bs, by rw [mapaExc, hb, hbs]⟩

/-- When every element either succeeds or fails with the same error and some
element fails, the monadic map fails with that error. -/
theorem mapaExc_error {α β ε : Type} (f : α → Except ε β) (E : ε)
    (hf : ∀ a, (∃ b, f a = Except.ok b) ∨ f a = Except.error E) :
    ∀ l : List α, (∃ a ∈ l, f a = Except.error E) → mapaExc f l = Except.error E := by
  intro l
  induction l with
  | nil => rintro ⟨a, ha, _⟩; cases ha
  | cons a as ih =>
    rintro ⟨x, hx, hxe⟩
    rcases hf a with ⟨b, hb⟩ | ha
    · have hrest : ∃ x ∈ as, f x = Except.error E := by
        rcases List.mem_cons.mp hx with rfl | hmem
        · rw [hxe] at hb; cases hb
        · exact ⟨x, hmem, hxe⟩
      rw [mapaExc, hb, ih hrest]
    · rw [mapaExc, ha]

/-- Success of the error-propagation skeleton of `main` over a combination
list is exactly success of the filter on every combination that has data. -/
theorem recorrerParejas_ok_iff (datosDe : String → String → List (List (String × PyVal))) :
    ∀ ps : List (String × String),
      (∃ u, recorrerParejas datosDe ps = Except.ok u) ↔
        ∀ p ∈ ps, datosDe p.1 p.2 = []
          ∨ ∃ out, filtrar_por_giro_dyn (datosDe p.1 p.2) = Except.ok out := by
  intro ps
  induction ps with
  | nil => simp [recorrerParejas]
  | cons p ps ih =>
    by_cases hd : datosDe p.1 p.2 = []
    · rw [recorrerParejas, if_pos hd]
      constructor
      · intro h q hq
        rcases List.mem_cons.mp hq with rfl | hmem
        · exact Or.inl hd
        · exact (ih.mp h) q hmem
      · intro h
        exact ih.mpr (fun q hq => h q (List.mem_cons.mpr (Or.inr hq)))
    · rw [recorrerParejas, if_neg hd]
      rcases hf : filtrar_por_giro_dyn (datosDe p.1 p.2) with e | val
      · constructor
        · rintro ⟨u, hu⟩; cases hu
        · intro h
          rcases h p (List.mem_cons_self p ps) with h1 | ⟨out, hout⟩
          · exact absurd h1 hd
          · rw [hf] at hout; cases hout
      · constructor
        · intro h q hq
          rcases List.mem_cons.mp hq with rfl | hmem
          · exact Or.inr ⟨val, hf⟩
          · exact (ih.mp h) q hmem
        · intro h
          exact ih.mpr (fun q hq => h q (List.mem_cons.mpr (Or.inr hq)))

/-! ## Claim about the dynamic safety of the filter -/

/-- C9: on the dynamically typed DataFrame, `filtrar_por_giro` raises
`KeyError` when no (lowered) `clase_actividad` column exists, succeeds when
the column exists and every value is a string, raises `TypeError` as soon as
some row's value is missing or not a string, and — since `main` installs no
handler around filtering — the run completes only when every combination
with data filters without an exception. -/
theorem filtrado_dinamico_parcialidad :
    (∀ datos : List (List (String × PyVal)),
      tieneColumnaClase datos = false →
      filtrar_por_giro_dyn datos = Except.error PyError.keyError)
  ∧ (∀ datos : List (List (String × PyVal)),
      tieneColumnaClase datos = true →
      (∀ fila ∈ datos, ∃ s, valorClase fila = PyVal.str s) →
      ∃ out, filtrar_por_giro_dyn datos = Except.ok out)
  ∧ (∀ datos : List (List (String × PyVal)),
      tieneColumnaClase datos = true →
      (∃ fila ∈ datos, ∀ s, valorClase fila ≠ PyVal.str s) →
      filtrar_por_giro_dyn datos = Except.error PyError.typeError)
  ∧ (∀ datosDe : String → String → List (List (String × PyVal)),
      (∃ u, mainDyn datosDe = Except.ok u) ↔
        ∀ p ∈ parejas, datosDe p.1 p.2 = []
          ∨ ∃ out, filtrar_por_giro_dyn (datosDe p.1 p.2) = Except.ok out) := by
  refine ⟨?_, ?_, ?_, ?_⟩
  · intro datos h
    unfold filtrar_por_giro_dyn
    rw [if_neg (by simp [h])]
  · intro datos h hstr
    unfold filtrar_por_giro_dyn
    rw [if_pos h]
    obtain ⟨mask, hmask⟩ := mapaExc_ok mascaraFila datos (by
      intro fila hf
      obtain ⟨s, hs⟩ := hstr fila hf
      exact ⟨_, by rw [mascaraFila, hs]⟩)
    rw [hmask]
    exact ⟨_, rfl⟩
  · intro datos h hbad
    unfold filtrar_por_giro_dyn
    rw [if_pos h]
    have hmap : mapaExc mascaraFila datos = Except.error PyError.typeError := by
      apply mapaExc_error mascaraFila PyError.typeError mascaraFila_ok_o_typeError
      obtain ⟨fila, hmem, hval⟩ := hbad
      refine ⟨fila, hmem, ?_⟩
      unfold mascaraFila
      rcases hv : valorClase fila with s | _ | n
      · exact absurd hv (hval s)
      · rfl
      · rfl
    rw [hmap]
  · intro datosDe
    exact recorrerParejas_ok_iff datosDe parejas

/-- Witness for C9: a DataFrame without the column raises `KeyError`, one
with an all-string column succeeds, and one with a non-string value under
the (case-lowered) column raises `TypeError`. -/
theorem filtrado_dinamico_parcialidad_witness :
    filtrar_por_giro_dyn [[("telefono", PyVal.str "55")]] = Except.error PyError.keyError
  ∧ (∃ out, filtrar_por_giro_dyn [[("Clase_Actividad", PyVal.str "Manufactura de papel")]]
        = Except.ok out)
  ∧ filtrar_por_giro_dyn [[("Clase_Actividad", PyVal.numero 3)]]
      = Except.error PyError.typeError := by
  have hval : valorClase [("Clase_Actividad", PyVal.numero 3)] = PyVal.numero 3 := by decide
  have hval2 : valorClase [("Clase_Actividad", PyVal.str "Manufactura de papel")]
      = PyVal.str "Manufactura de papel" := by decide
  refine ⟨?_, ?_, ?_⟩
  · exact filtrado_dinamico_parcialidad.1 _ (by decide)
  · exact filtrado_dinamico_parcialidad.2.1 _ (by decide)
      (fun fila hf => by
        rcases List.mem_singleton.mp hf with rfl
        exact ⟨_, hval2⟩)
  · exact filtrado_dinamico_parcialidad.2.2.1 _ (by decide)
      ⟨[("Clase_Actividad", PyVal.numero 3)], by decide,
        fun s h => by rw [hval] at h; exact PyVal.noConfusion h⟩

end Denue
